import Mathlib

/-!
Verification of the polling-and-reconciliation engine of the TOOL-M backend
(`backend/app/utils/snmp_engine.py` and `backend/app/routers/topology.py`)
against its natural-language specification.

The Python code is shallowly embedded: database rows become Lean structures,
SNMP walk results become association lists keyed by OID strings, timestamps
become natural numbers (every `datetime.utcnow()` inside one poll cycle is
modelled by the single `now` parameter of that cycle), Python `int` becomes
`Int`, and Python float division (`/` followed by `int(...)` truncation)
is modelled by exact rational division followed by truncation toward zero.
Strings are modelled over their character sequences; `.strip()` strips the
ASCII whitespace characters, and `.lower()` lowers ASCII letters, which is
faithful for the protocol data involved.
-/

/-- ASCII whitespace, as stripped by Python `str.strip()`. -/
def isPyWs (c : Char) : Bool :=
  c = ' ' ∨ c = '\t' ∨ c = '\n' ∨ c = '\r' ∨ c = '\x0b' ∨ c = '\x0c'

/-- Strip `isPyWs` characters from both ends of a character list. -/
def pyStripList (cs : List Char) : List Char :=
  ((cs.dropWhile isPyWs).reverse.dropWhile isPyWs).reverse

/-- Python `s.strip()`. -/
def pyStrip (s : String) : String := ⟨pyStripList s.data⟩

/-- Python `s.replace("\x00", "")`. -/
def removeNul (s : String) : String := ⟨s.data.filter (fun c => decide (c ≠ '\x00'))⟩

/-- Does `l` start with `pre`? -/
def listStartsWith : List Char → List Char → Bool
  | _, [] => true
  | [], _ :: _ => false
  | c :: l, p :: pre => decide (c = p) && listStartsWith l pre

/-- Does `sub` occur contiguously in `l`? -/
def listContainsSub (sub : List Char) : List Char → Bool
  | [] => listStartsWith [] sub
  | c :: t => listStartsWith (c :: t) sub || listContainsSub sub t

/-- Python `x in y` on strings (substring containment). -/
def pyIn (x y : String) : Bool := listContainsSub x.data y.data

/-- Python `c.lower()` for one character (ASCII range, which covers the
protocol data involved). -/
def charLower (c : Char) : Char :=
  if 'A' ≤ c ∧ c ≤ 'Z' then Char.ofNat (c.toNat + 32) else c

/-- Python `s.lower()`. -/
def pyLower (s : String) : String := ⟨s.data.map charLower⟩

/-- Split a character list on a separator character (groups between
occurrences, Python `str.split(sep)` semantics). -/
def splitOnChar (sep : Char) (cs : List Char) : List (List Char) :=
  cs.foldr
    (fun c acc =>
      match acc with
      | [] => [[c]]
      | g :: gs => if c = sep then [] :: g :: gs else (c :: g) :: gs)
    [[]]

/-- Python `s.split(".")` (as full list; `split(".", 1)[0]` is its head and
`rsplit(".", 1)[-1]` is its last element). -/
def pySplitOnDot (s : String) : List String := (splitOnChar '.' s.data).map (fun g => ⟨g⟩)

/-- One value of an SNMP physical-address column: either a (latin-1
decodable) Python string or a raw byte sequence, the two shapes
`format_mac_address` distinguishes. -/
inductive MacVal where
  | vstr (s : String)
  | vbytes (bs : List Nat)
deriving DecidableEq, Repr

/-- Python truthiness of an optional MAC value (`if mac_raw` / `if not mac_value`). -/
def pyTruthyMac : Option MacVal → Bool
  | none => false
  | some (.vstr s) => s ≠ ""
  | some (.vbytes bs) => bs ≠ []

/-- Lowercase hex digit for `n < 16`. -/
def hexDigitChar (n : Nat) : Char :=
  if n < 10 then Char.ofNat (48 + n) else Char.ofNat (87 + n)

/-- Python `f"{byte:02x}"` for a byte value. -/
def hexByte (b : Nat) : String := ⟨[hexDigitChar (b / 16 % 16), hexDigitChar (b % 16)]⟩

/-- Python `":".join(f"{byte:02x}" for byte in bs)`. -/
def macHex (bs : List Nat) : String := String.intercalate ":" (bs.map hexByte)

/-- Python `s.encode('latin-1')`: each code point below 256 becomes one byte;
a larger code point raises `UnicodeEncodeError` (caught by the caller). -/
def encodeLatin1 (s : String) : Option (List Nat) :=
  if s.data.all (fun c => decide (c.toNat < 256)) then some (s.data.map Char.toNat)
  else none

/-- Embedding of `format_mac_address` (snmp_engine.py lines 69-107).
`none` input models Python `None`. The final `except` clause catches the
`UnicodeEncodeError` of `encode('latin-1')`, logs, and returns `None`. -/
def format_mac_address (mac_value : Option MacVal) : Option String :=
  match mac_value with
  | none => none
  | some v =>
    if pyTruthyMac (some v) = false then none   -- `if not mac_value: return None`
    else
      match v with
      | .vstr s =>
        let s1 := pyStrip (removeNul s)          -- `mac_value.replace("\x00", "").strip()`
        if s1 = "" then none
        else if s1.data.contains ':' then some s1  -- `if ":" in mac_value: return mac_value`
        else
          match encodeLatin1 s1 with             -- `mac_value.encode('latin-1')`
          | none => none                         -- UnicodeEncodeError: logged, returns None
          | some bs =>
            if 6 ≤ bs.length then some (macHex (bs.take 6)) else none
      | .vbytes bs =>
        if 6 ≤ bs.length then some (macHex (bs.take 6)) else none

/-- Embedding of `calc_bps` (snmp_engine.py lines 62-66). A `none` argument
models a non-numeric Python value: the arithmetic raises and the `except`
returns 0; `interval = 0` raises `ZeroDivisionError` with the same effect.
Numeric values are modelled as exact rationals. -/
def calc_bps (old new interval : Option ℚ) : ℚ :=
  match old, new, interval with
  | some o, some n, some i => if i = 0 then 0 else max ((n - o) * 8 / i) 0
  | _, _, _ => 0

/-- Python `int(q)` on a (float) value: truncation toward zero. -/
def pyInt (q : ℚ) : Int := if 0 ≤ q then ⌊q⌋ else -⌊-q⌋

/-- Embedding of `oid_index` (snmp_engine.py lines 110-114):
`oid_string.rsplit(".", 1)[-1]`, i.e. the component after the last dot.
The `except` branch (returning `None`) is unreachable for string input. -/
def oid_index (oid_string : String) : Option String :=
  some ((pySplitOnDot oid_string).getLastD "")

/-- Interface-table OID `IF_DESCR_OID`. -/
def IF_DESCR_OID : String := "1.3.6.1.2.1.2.2.1.2"

/-- Interface-table OID `IF_OPER_STATUS_OID`. -/
def IF_OPER_STATUS_OID : String := "1.3.6.1.2.1.2.2.1.8"

/-- Interface-table OID `IF_IN_OCTETS_OID`. -/
def IF_IN_OCTETS_OID : String := "1.3.6.1.2.1.2.2.1.10"

/-- Interface-table OID `IF_OUT_OCTETS_OID`. -/
def IF_OUT_OCTETS_OID : String := "1.3.6.1.2.1.2.2.1.16"

/-- Interface-table OID `IF_MAC_OID`. -/
def IF_MAC_OID : String := "1.3.6.1.2.1.2.2.1.6"

/-- LLDP remote system name OID. -/
def LLDP_REM_SYS_NAME : String := "1.0.8802.1.1.2.1.4.1.1.9"

/-- LLDP remote port description OID. -/
def LLDP_REM_PORT_DESC : String := "1.0.8802.1.1.2.1.4.1.1.8"

/-- LLDP remote management address OID. -/
def LLDP_REM_MAN_ADDR : String := "1.0.8802.1.1.2.1.4.2.1.4"

/-- Lookup in a Python dict modelled as an association list (keys unique by
construction: `dictSet` replaces). -/
def dictGet {α : Type} (m : List (String × α)) (k : String) : Option α :=
  (m.find? (fun p => decide (p.1 = k))).map (fun p => p.2)

/-- Python `m.get(k, d)`. -/
def dictGetD {α : Type} (m : List (String × α)) (k : String) (d : α) : α :=
  (dictGet m k).getD d

/-- Python `m[k] = v`: replace in place if the key exists, else append. -/
def dictSet {α : Type} (m : List (String × α)) (k : String) (v : α) : List (String × α) :=
  if (m.find? (fun p => decide (p.1 = k))).isSome then
    m.map (fun p => if p.1 = k then (k, v) else p)
  else m ++ [(k, v)]

/-- Row of the `devices` table (models.py `Device`), restricted to the columns
the polling core reads or writes. A NULL `hostname` is modelled as `""`
(Python truthiness treats both the same in the matching code). -/
structure Device where
  id : Nat
  hostname : String
  ip_address : String
  snmp_community : String
  status : String
  last_seen : Option Nat
  lldp_hostname : Option String
deriving DecidableEq, Repr

/-- Row of the `interfaces` table (models.py `Interface`), polling-relevant columns. -/
structure Interface where
  id : Nat
  device_id : Nat
  interface_name : String
  status : String
  mac_address : Option String
  speed_bps : Option Int
deriving DecidableEq, Repr

/-- Row of the `interface_stats` table (models.py `InterfaceStats`). -/
structure InterfaceStats where
  interface_id : Nat
  timestamp : Nat
  in_bps : Int
  out_bps : Int
deriving DecidableEq, Repr

/-- Row of the `discovered_devices` table (models.py `DiscoveredDevice`). -/
structure DiscoveredDevice where
  id : Nat
  lldp_hostname : String
  ip_address : Option String
  first_seen : Nat
  last_seen : Nat
deriving DecidableEq, Repr

/-- Row of the `topology_links` table (models.py `TopologyLink`). -/
structure TopologyLink where
  id : Nat
  src_device_id : Nat
  src_interface : String
  dst_device_id : Option Nat
  dst_discovered_device_id : Option Nat
  dst_hostname : Option String
  dst_interface : String
  last_seen : Nat
deriving DecidableEq, Repr

/-- The database state owned by the polling core. `nextId` models the
autoincrement counter handed out by `session.flush()` / commit. -/
structure DB where
  devices : List Device
  interfaces : List Interface
  stats : List InterfaceStats
  discovered : List DiscoveredDevice
  links : List TopologyLink
  nextId : Nat
deriving DecidableEq, Repr

/-- The plain `device_info` dict built by `poll_all_devices` and handed to
`poll_device` (snmp_engine.py lines 271-276, 531-537). -/
structure DeviceInfo where
  id : Nat
  hostname : String
  ip_address : String
  snmp_community : String
deriving DecidableEq, Repr

/-- Update the first list element satisfying `p` (SQLAlchemy
`scalars().first()` followed by an in-place mutation; no-op when absent). -/
def updateFirst {α : Type} (p : α → Bool) (f : α → α) : List α → List α
  | [] => []
  | x :: xs => if p x then f x :: xs else x :: updateFirst p f xs

/-- One LLDP neighbor descriptor as produced by `get_lldp_neighbors`
(snmp_engine.py lines 219-265). -/
structure Neighbor where
  neighbor_name : String
  neighbor_ip : String
  neighbor_iface : String
deriving DecidableEq, Repr

/-- Embedding of `get_lldp_neighbors` (snmp_engine.py lines 219-265): merge
the three LLDP walks by shared index suffix. A failed (`none`) or empty
system-name walk yields no neighbors; missing port/address entries default
to `""`. The per-entry `except ... continue` has no failure source in the
typed model. -/
def get_lldp_neighbors (sysnames portdesc manaddr : Option (List (String × String))) :
    List (String × Neighbor) :=
  match sysnames with
  | none => []
  | some sys =>
    if sys = [] then []           -- `if not sysnames: return neighbors`
    else
      sys.foldl
        (fun nbrs entry =>
          let (oid, sysname) := entry
          match oid_index oid with
          | none => nbrs
          | some index =>
            let neighbor_name := pyStrip (removeNul sysname)
            let neighbor_ip :=
              match manaddr with   -- `if manaddr:` (None and {} both falsy)
              | some m =>
                if m = [] then ""
                else pyStrip (removeNul (dictGetD m (LLDP_REM_MAN_ADDR ++ "." ++ index) ""))
              | none => ""
            let neighbor_iface :=
              match portdesc with
              | some m =>
                if m = [] then ""
                else pyStrip (removeNul (dictGetD m (LLDP_REM_PORT_DESC ++ "." ++ index) ""))
              | none => ""
            dictSet nbrs index
              { neighbor_name := neighbor_name, neighbor_ip := neighbor_ip,
                neighbor_iface := neighbor_iface })
        []

/-- The five interface walks and three LLDP walks fanned out by `poll_device`
(snmp_engine.py lines 290-296 and 227-231); `none` models a failed walk,
`some []` a walk that succeeded but returned nothing. -/
structure Walks where
  if_descr : Option (List (String × String))
  if_oper : Option (List (String × Int))
  if_in : Option (List (String × Int))
  if_out : Option (List (String × Int))
  if_mac : Option (List (String × MacVal))
  lldp_sysnames : Option (List (String × String))
  lldp_portdesc : Option (List (String × String))
  lldp_manaddr : Option (List (String × String))
deriving Repr

/-- Mark a device down and clear its last-seen (snmp_engine.py lines 300-311). -/
def markDeviceDown (db : DB) (device_id : Nat) : DB :=
  { db with
    devices := updateFirst (fun d => decide (d.id = device_id))
      (fun d => { d with status := "down", last_seen := none }) db.devices }

/-- Mark a device up with a fresh last-seen (snmp_engine.py lines 492-496). -/
def markDeviceUp (db : DB) (device_id : Nat) (now : Nat) : DB :=
  { db with
    devices := updateFirst (fun d => decide (d.id = device_id))
      (fun d => { d with status := "up", last_seen := some now }) db.devices }

/-- Python truthiness of `mac` (`Option String`): `if mac:`. -/
def pyTruthyOptStr : Option String → Bool
  | none => false
  | some s => s ≠ ""

/-- Find-or-create of a `DiscoveredDevice` keyed by its announced name
(snmp_engine.py lines 401-415): refresh `last_seen` when found, else create
with `first_seen = last_seen = now` and `ip_address = neighbor_ip or None`. -/
def findOrCreateDiscovered (db : DB) (neighbor_name neighbor_ip : String) (now : Nat) : DB :=
  if (db.discovered.find? (fun dd => decide (dd.lldp_hostname = neighbor_name))).isSome then
    { db with
      discovered := updateFirst (fun dd => decide (dd.lldp_hostname = neighbor_name))
        (fun dd => { dd with last_seen := now }) db.discovered }
  else
    { db with
      discovered := db.discovered ++
        [{ id := db.nextId, lldp_hostname := neighbor_name,
           ip_address := if neighbor_ip ≠ "" then some neighbor_ip else none,
           first_seen := now, last_seen := now }],
      nextId := db.nextId + 1 }

/-- The tuple the managed-device link query matches on
(snmp_engine.py lines 425-432). -/
def managedLinkPred (src : Nat) (src_iface : String) (dst : Nat) (dst_iface : String)
    (l : TopologyLink) : Bool :=
  decide (l.src_device_id = src ∧ l.src_interface = src_iface ∧
    l.dst_device_id = some dst ∧ l.dst_interface = dst_iface)

/-- Upsert of a link to a managed neighbor device (snmp_engine.py lines
423-447): refresh `last_seen` on a match, else insert a new row. -/
def upsertManagedLink (db : DB) (src : Nat) (src_iface : String) (dst : Nat)
    (dst_iface dst_hostname : String) (now : Nat) : DB :=
  if (db.links.find? (managedLinkPred src src_iface dst dst_iface)).isSome then
    { db with
      links := updateFirst (managedLinkPred src src_iface dst dst_iface)
        (fun l => { l with last_seen := now }) db.links }
  else
    { db with
      links := db.links ++
        [{ id := db.nextId, src_device_id := src, src_interface := src_iface,
           dst_device_id := some dst, dst_discovered_device_id := none,
           dst_interface := dst_iface, dst_hostname := some dst_hostname,
           last_seen := now }],
      nextId := db.nextId + 1 }

/-- The fallback branch (snmp_engine.py lines 473-484): store a link with
hostname only. Note the source inserts unconditionally here — there is no
lookup of an existing row in this branch. -/
def addFallbackLink (db : DB) (src : Nat) (src_iface dst_hostname dst_iface : String)
    (now : Nat) : DB :=
  { db with
    links := db.links ++
      [{ id := db.nextId, src_device_id := src, src_interface := src_iface,
         dst_device_id := none, dst_discovered_device_id := none,
         dst_hostname := some dst_hostname, dst_interface := dst_iface,
         last_seen := now }],
    nextId := db.nextId + 1 }

/-- Embedding of the per-interface LLDP-neighbor handling
(snmp_engine.py lines 385-485). The branch for `not neighbor_device and
neighbor_name` finds-or-creates a `DiscoveredDevice` and then reaches line
418, which reads `if device and not device.lldp_hostname:` — but `device`
is an undefined name in `poll_device`, so evaluating it raises `NameError`.
The per-interface `except` (lines 487-489) catches it and moves on to the
next interface, keeping the session mutations made so far; we model that as
an early return of the state mutated so far. Consequently the source's
`elif discovered_device:` link branch (lines 448-472) is unreachable: on
every path that reaches link creation, `discovered_device` is `None`. -/
def lookupNeighborDevice (db : DB) (nb : Neighbor) : Option Device :=
  if nb.neighbor_ip ≠ "" then
    db.devices.find? (fun d => decide (d.ip_address = nb.neighbor_ip))
  else none

/-- Continuation of the doc comment above: `lookupNeighborDevice` is the
`neighbor_device` lookup of lines 391-397 (performed only when the neighbor
IP is truthy). -/
def processNeighbor (db : DB) (device_id : Nat) (name : String) (nb : Neighbor)
    (now : Nat) : DB :=
  if (lookupNeighborDevice db nb).isNone ∧ nb.neighbor_name ≠ "" then
    -- find-or-create, then NameError at line 418 ends this interface's handling
    findOrCreateDiscovered db nb.neighbor_name nb.neighbor_ip now
  else
    -- `if neighbor_device or discovered_device or neighbor_ip or neighbor_name:`
    -- (`discovered_device` is `None` on every path reaching this point)
    if (lookupNeighborDevice db nb).isSome ∨ nb.neighbor_ip ≠ "" ∨ nb.neighbor_name ≠ "" then
      match lookupNeighborDevice db nb with
      | some nd =>
        upsertManagedLink db device_id name nd.id nb.neighbor_iface nb.neighbor_name now
      | none =>
        addFallbackLink db device_id name nb.neighbor_name nb.neighbor_iface now
    else db

/-- The walk data and per-cycle constants threaded through the per-interface
loop of `poll_device`. -/
structure PollCtx where
  device_id : Nat
  if_oper : Option (List (String × Int))
  if_in : Option (List (String × Int))
  if_out : Option (List (String × Int))
  if_mac : Option (List (String × MacVal))
  neighbors : List (String × Neighbor)
  now : Nat
  interval : Int

/-- Python `int(a / b)` for integer `a`, `b`: float true division followed by
`int()` truncation toward zero, modelled as exact truncated division (the
source only ever divides by the positive poll interval). -/
def pyIntDiv (a b : Int) : Int := Int.tdiv a b

/-- Find-or-create of an `Interface` row keyed by stripped name within the
device (snmp_engine.py lines 354-373): update status always, MAC only when
truthy, speed only when not `None`; on create, flush assigns the identity
before the dependent stats row references it. Returns the new state, the
(possibly extended) name dictionary, and the row id. -/
def upsertInterface (db : DB) (dict : List (String × Nat)) (device_id : Nat)
    (name status : String) (mac : Option String) (speed_bps : Option Int) :
    DB × List (String × Nat) × Nat :=
  match dictGet dict name with
  | some iid =>
    ({ db with
       interfaces := updateFirst (fun i => decide (i.id = iid))
         (fun i =>
           { i with
             status := status
             mac_address := if pyTruthyOptStr mac then mac else i.mac_address
             speed_bps := if speed_bps.isSome then speed_bps else i.speed_bps })
         db.interfaces },
     dict, iid)
  | none =>
    let iid := db.nextId
    ({ db with
       interfaces := db.interfaces ++
         [{ id := iid, device_id := device_id, interface_name := name, status := status,
            mac_address := if pyTruthyOptStr mac then mac else none,
            speed_bps := speed_bps }],
       nextId := db.nextId + 1 },
     dictSet dict name iid, iid)

/-- Decoded operational status for one index (snmp_engine.py lines 331,
336-338): oper value 1 is "up", anything else (or a missing entry, which
defaults to 2) is "down". -/
def ifOperStatus (ctx : PollCtx) (index : String) : String :=
  let oper_raw : Option Int :=
    match ctx.if_oper with
    | some m => dictGet m (IF_OPER_STATUS_OID ++ "." ++ index)
    | none => none
  let oper_status_val : Int := match oper_raw with | some v => v | none => 2
  if oper_status_val = 1 then "up" else "down"

/-- Decoded in-octets counter (snmp_engine.py lines 332, 340): missing walk
or entry defaults to 0. -/
def ifInOct (ctx : PollCtx) (index : String) : Int :=
  match ctx.if_in with
  | some m => dictGetD m (IF_IN_OCTETS_OID ++ "." ++ index) 0
  | none => 0

/-- Decoded out-octets counter (snmp_engine.py lines 333, 341). -/
def ifOutOct (ctx : PollCtx) (index : String) : Int :=
  match ctx.if_out with
  | some m => dictGetD m (IF_OUT_OCTETS_OID ++ "." ++ index) 0
  | none => 0

/-- Decoded MAC (snmp_engine.py lines 334, 344-345): formatted only when the
raw value is truthy. -/
def ifMacValue (ctx : PollCtx) (index : String) : Option String :=
  let mac_raw : Option MacVal :=
    match ctx.if_mac with
    | some m => dictGet m (IF_MAC_OID ++ "." ++ index)
    | none => none
  if pyTruthyMac mac_raw then format_mac_address mac_raw else none

/-- `in_bps = int(in_oct * 8 / interval)` (snmp_engine.py line 348). -/
def ifInBps (ctx : PollCtx) (index : String) : Int := pyIntDiv (ifInOct ctx index * 8) ctx.interval

/-- `out_bps = int(out_oct * 8 / interval)` (snmp_engine.py line 349). -/
def ifOutBps (ctx : PollCtx) (index : String) : Int :=
  pyIntDiv (ifOutOct ctx index * 8) ctx.interval

/-- `speed_bps = int(calc_bps(0, in_oct, interval)) if in_oct else None`
(snmp_engine.py line 350). -/
def ifSpeed (ctx : PollCtx) (index : String) : Option Int :=
  if ifInOct ctx index ≠ 0 then
    some (pyInt (calc_bps (some 0) (some ((ifInOct ctx index : Int) : ℚ))
      (some ((ctx.interval : Int) : ℚ))))
  else none

/-- One iteration of the `for full_oid, name_val in if_descr.items()` loop of
`poll_device` (snmp_engine.py lines 323-489): decode the interface record,
upsert the `Interface` row, append one `InterfaceStats` row, and process the
LLDP neighbor for this index if any. -/
def pollStep (ctx : PollCtx) (s : DB × List (String × Nat)) (entry : String × String) :
    DB × List (String × Nat) :=
  let name := pyStrip (removeNul entry.2)
  match oid_index entry.1 with
  | none => s
  | some index =>
    let r := upsertInterface s.1 s.2 ctx.device_id name (ifOperStatus ctx index)
      (ifMacValue ctx index) (ifSpeed ctx index)
    let db2 :=
      { r.1 with
        stats := r.1.stats ++
          [{ interface_id := r.2.2, timestamp := ctx.now, in_bps := ifInBps ctx index,
             out_bps := ifOutBps ctx index }] }
    match dictGet ctx.neighbors index with
    | some nb => (processNeighbor db2 ctx.device_id name nb ctx.now, r.2.1)
    | none => (db2, r.2.1)

/-- The existing-interface dictionary built at the top of the session block
(snmp_engine.py lines 319-320): rows of this device keyed by stripped
interface name, later rows winning on key collisions as in a Python dict
comprehension. -/
def buildIfaceDict (ifaces : List Interface) (device_id : Nat) : List (String × Nat) :=
  (ifaces.filter (fun i => decide (i.device_id = device_id))).foldl
    (fun dict i => dictSet dict (pyStrip i.interface_name) i.id) []

/-- The walk data and per-cycle constants for one `poll_device` call, as
threaded into its per-interface loop. -/
def ctxOf (info : DeviceInfo) (w : Walks) (now : Nat) (interval : Int) : PollCtx where
  device_id := info.id
  if_oper := w.if_oper
  if_in := w.if_in
  if_out := w.if_out
  if_mac := w.if_mac
  neighbors := get_lldp_neighbors w.lldp_sysnames w.lldp_portdesc w.lldp_manaddr
  now := now
  interval := interval

/-- Embedding of `poll_device` (snmp_engine.py lines 271-515) as a function of
the device snapshot, the eight walk results, and the cycle timestamp. No IP
configured is a pure skip; a failed or empty description walk marks the
device down and stops; otherwise the per-interface loop runs and the device
is marked up. The per-device commit is modelled as always succeeding (a
commit failure would roll the whole device's cycle back to `db`). -/
def poll_device (db : DB) (info : DeviceInfo) (w : Walks) (now : Nat) (interval : Int) : DB :=
  if info.ip_address = "" then db
  else
    match w.if_descr with
    | none => markDeviceDown db info.id
    | some descr =>
      if descr = [] then markDeviceDown db info.id   -- `if not if_descr:`
      else
        let s := descr.foldl (pollStep (ctxOf info w now interval))
          (db, buildIfaceDict db.interfaces info.id)
        markDeviceUp s.1 info.id now

/-- Is `c` one of `[0-9a-fA-F]`? -/
def isHexChar (c : Char) : Bool :=
  c.isDigit ∨ ('a' ≤ c ∧ c ≤ 'f') ∨ ('A' ≤ c ∧ c ≤ 'F')

/-- Embedding of `normalize_mac` (topology.py lines 244-247):
`re.sub(r"[^0-9a-fA-F]", "", s).lower()`; the empty-input guard returns `""`,
which the substitution also produces. -/
def normalize_mac (s : String) : String := ⟨(s.data.filter isHexChar).map charLower⟩

/-- Take exactly `k` leading decimal digits, returning them and the rest. -/
def takeDigitsN (cs : List Char) (k : Nat) : Option (List Char × List Char) :=
  let h := cs.take k
  if h.length = k ∧ h.all Char.isDigit then some (h, cs.drop k) else none

/-- Greedy preference order of `\d{1,3}`: three digits, then two, then one. -/
def firstSomeThree {α : Type} (f : Nat → Option α) : Option α :=
  match f 3 with
  | some r => some r
  | none =>
    match f 2 with
    | some r => some r
    | none => f 1

/-- Match `\d{1,3}` followed by `groups` repetitions of `\.\d{1,3}` at the
head of `cs`, with Python regex greedy backtracking (each quantifier tries
the longest length first, backtracking on failure of the continuation).
Digits are ASCII, as in the data this runs on. -/
def matchQuadGroups : Nat → List Char → Option (List Char)
  | 0, cs => firstSomeThree (fun k => (takeDigitsN cs k).map (fun p => p.1))
  | g + 1, cs =>
    firstSomeThree (fun k =>
      match takeDigitsN cs k with
      | some (d, rest) =>
        match rest with
        | '.' :: rest2 => (matchQuadGroups g rest2).map (fun t => d ++ '.' :: t)
        | _ => none
      | none => none)

/-- Leftmost match of the dotted-quad pattern, scanning positions left to
right as `re.search` does. -/
def re_search_ipv4_list : List Char → Option (List Char)
  | [] => none
  | c :: t =>
    match matchQuadGroups 3 (c :: t) with
    | some r => some r
    | none => re_search_ipv4_list t

/-- Embedding of `re.search(r"(\d{1,3}(?:\.\d{1,3}){3})", dst_name)`
(topology.py line 290), returning the matched group. -/
def re_search_ipv4 (s : String) : Option String :=
  (re_search_ipv4_list s.data).map (fun g => ⟨g⟩)

/-- Twelve consecutive hex digits at the head of `cs`, if present. -/
def takeHex12At (cs : List Char) : Option (List Char) :=
  let h := cs.take 12
  if h.length = 12 ∧ h.all isHexChar then some h else none

/-- Leftmost run of twelve hex digits. -/
def re_search_hex12_list : List Char → Option (List Char)
  | [] => none
  | c :: t =>
    match takeHex12At (c :: t) with
    | some r => some r
    | none => re_search_hex12_list t

/-- Embedding of `re.search(r"([0-9A-Fa-f]{12})", dst_name)`
(topology.py line 302), returning the matched group. -/
def re_search_hex12 (s : String) : Option String :=
  (re_search_hex12_list s.data).map (fun g => ⟨g⟩)

/-- The non-device marker check of the backfill matcher (topology.py line
256): a truthy label containing "adapter", "fw_version" or "firmware"
case-insensitively. -/
def hasNonDeviceMarker (dst_name : String) : Bool :=
  decide (dst_name ≠ "") &&
    (pyIn "adapter" (pyLower dst_name) || pyIn "fw_version" (pyLower dst_name) ||
      pyIn "firmware" (pyLower dst_name))

/-- Strategy 1 (topology.py lines 259-265): exact case-insensitive hostname
match, first device in inventory order, reason `"exact"`. -/
def strategyExact (devices : List Device) (dst_name : String) : Option (Device × String) :=
  if dst_name ≠ "" then
    (devices.find? (fun d => decide (d.hostname ≠ "" ∧ pyLower d.hostname = pyLower dst_name))).map
      (fun d => (d, "exact"))
  else none

/-- Strategy 2 (topology.py lines 267-274): the label portion before the
first dot, tried only when the label contains a dot, reason `"short"`. -/
def strategyShort (devices : List Device) (dst_name : String) : Option (Device × String) :=
  if dst_name ≠ "" ∧ pyIn "." dst_name then
    (devices.find? (fun d =>
        decide (d.hostname ≠ "" ∧
          pyLower d.hostname = pyLower ((pySplitOnDot dst_name).headD "")))).map
      (fun d => (d, "short"))
  else none

/-- For one device, the containment checks of strategy 3 in source order:
hostname inside label first, then label inside hostname (topology.py lines
278-285). -/
def containsReason (dst_name : String) (d : Device) : Option String :=
  if d.hostname ≠ "" ∧ pyIn (pyLower d.hostname) (pyLower dst_name) then some "contains_dst"
  else if pyIn (pyLower dst_name) (pyLower d.hostname) then some "contains_dev"
  else none

/-- Strategy 3 (topology.py lines 276-285): case-insensitive substring
containment in either direction, first hit over inventory order. -/
def strategyContains (devices : List Device) (dst_name : String) : Option (Device × String) :=
  if dst_name ≠ "" then
    devices.findSome? (fun d => (containsReason dst_name d).map (fun r => (d, r)))
  else none

/-- Strategy 4 (topology.py lines 288-297): the first dotted-quad literal
embedded in the label, matched verbatim against a device IP. -/
def strategyIp (devices : List Device) (dst_name : String) : Option (Device × String) :=
  if dst_name ≠ "" then
    match re_search_ipv4 dst_name with
    | some ip =>
      (devices.find? (fun d => decide (d.ip_address ≠ "" ∧ d.ip_address = ip))).map
        (fun d => (d, "ip:" ++ ip))
    | none => none
  else none

/-- Strategy 5 (topology.py lines 299-313): the first 12-hex-digit run in the
label, matched suffix-or-exact against normalized interface MACs; resolves
to the owning device of the first matching interface (the loop breaks there
even if that device lookup comes back empty). -/
def strategyMac (devices : List Device) (ifaces : List Interface) (dst_name : String) :
    Option (Device × String) :=
  if dst_name ≠ "" then
    match re_search_hex12 dst_name with
    | some h =>
      let hexstr := pyLower h
      match ifaces.find? (fun i =>
          let mac_norm := normalize_mac (i.mac_address.getD "")
          hexstr.data.isSuffixOf mac_norm.data || decide (mac_norm = hexstr)) with
      | some iface =>
        (devices.find? (fun d => decide (d.id = iface.device_id))).map
          (fun d => (d, "mac:" ++ hexstr))
      | none => none
    | none => none
  else none

/-- The candidate resolution of `backfill_links` for one (non-skipped) label
(topology.py lines 259-313): each strategy runs only while `candidate` is
still unset, and each inner loop breaks at its first hit. -/
def backfillCandidate (devices : List Device) (ifaces : List Interface) (dst_name : String) :
    Option (Device × String) :=
  match strategyExact devices dst_name with
  | some c => some c
  | none =>
    match strategyShort devices dst_name with
    | some c => some c
    | none =>
      match strategyContains devices dst_name with
      | some c => some c
      | none =>
        match strategyIp devices dst_name with
        | some c => some c
        | none => strategyMac devices ifaces dst_name

/-- Modelled from the spec: "For each candidate, try in strict priority
order, stop at first hit" — the five strategies as an ordered list whose
first `some` wins. Compared against `backfillCandidate` (the translation of
the code's control flow) in the C5 theorem. -/
def backfillCandidateSpec (devices : List Device) (ifaces : List Interface) (dst_name : String) :
    Option (Device × String) :=
  [strategyExact devices dst_name, strategyShort devices dst_name,
    strategyContains devices dst_name, strategyIp devices dst_name,
    strategyMac devices ifaces dst_name].findSome? (fun c => c)

/-- One suggestion record of the backfill endpoint (topology.py lines 316-324). -/
structure Suggestion where
  link_id : Nat
  src_device_id : Nat
  src_interface : String
  dst_hostname : Option String
  matched_device_id : Nat
  matched_device_hostname : String
  reason : String
deriving DecidableEq, Repr

/-- Processing of one unresolved link by `backfill_links` (topology.py lines
249-332): strip the label, skip non-device markers, resolve a candidate,
and (outside dry-run) point the link at the candidate, keeping the old
label when the candidate's hostname is falsy
(`link.dst_hostname = candidate.hostname or link.dst_hostname`). -/
def processLink (devices : List Device) (ifaces : List Interface) (dry_run : Bool)
    (link : TopologyLink) : TopologyLink × Option Suggestion :=
  let dst_name := pyStrip (link.dst_hostname.getD "")
  if hasNonDeviceMarker dst_name then (link, none)
  else
    match backfillCandidate devices ifaces dst_name with
    | some c =>
      let sug : Suggestion :=
        { link_id := link.id, src_device_id := link.src_device_id,
          src_interface := link.src_interface, dst_hostname := link.dst_hostname,
          matched_device_id := c.1.id, matched_device_hostname := c.1.hostname,
          reason := c.2 }
      if dry_run then (link, some sug)
      else
        ({ link with
           dst_device_id := some c.1.id
           dst_hostname := if c.1.hostname ≠ "" then some c.1.hostname else link.dst_hostname },
         some sug)
    | none => (link, none)

/-- The candidate selection of `backfill_links` (topology.py lines 227-230):
all links with an unresolved destination, truncated to the first `limit`
entries only when `limit` is truthy and strictly positive
(`if limit and limit > 0`). -/
def selectLinks (links : List TopologyLink) (limit : Int) : List TopologyLink :=
  let unresolved := links.filter (fun l => decide (l.dst_device_id = none))
  if limit ≠ 0 ∧ 0 < limit then unresolved.take limit.toNat else unresolved

/-- Return value and post-state of the backfill endpoint. -/
structure BackfillResult where
  db : DB
  processed : Nat
  updated : Nat
  suggestions : List Suggestion
deriving DecidableEq, Repr

/-- Embedding of `backfill_links` (topology.py lines 214-340). Devices and
MAC-bearing interfaces are cached before the loop; each selected link is
processed against those caches; mutations are in-place on ORM rows, modelled
by writing the processed row back over the row with the same primary key;
dry-run commits nothing. The batch commit is modelled as succeeding (a
failure would roll the whole batch back to `db`). -/
def backfill_links (db : DB) (dry_run : Bool) (limit : Int) : BackfillResult :=
  let links := selectLinks db.links limit
  let all_devices := db.devices
  let all_ifaces := db.interfaces.filter (fun i => i.mac_address.isSome)
  let results := links.map (fun l => (l.id, processLink all_devices all_ifaces dry_run l))
  let suggestions := results.filterMap (fun r => r.2.2)
  let newLinks :=
    if dry_run then db.links
    else
      db.links.map (fun l =>
        match results.find? (fun r => decide (r.1 = l.id)) with
        | some r => r.2.1
        | none => l)
  { db := { db with links := newLinks }, processed := links.length,
    updated := if dry_run then 0 else suggestions.length, suggestions := suggestions }

/-- Observable steps of one protocol-sweep task (`sem_task`,
snmp_engine.py lines 588-603), in execution order. -/
inductive SweepEvent where
  | acquireSlot (device_id : Nat)
  | checkStatus (device_id : Nat) (status : Option String)
  | runPoll (device_id : Nat)
  | skipPoll (device_id : Nat)
  | releaseSlot (device_id : Nat)
deriving DecidableEq, Repr

/-- Current DB status of a device, as the quick re-check reads it. -/
def statusOf (db : DB) (device_id : Nat) : Option String :=
  (db.devices.find? (fun d => decide (d.id = device_id))).map (fun d => d.status)

/-- Embedding of one `sem_task` (snmp_engine.py lines 588-603) as its event
trace: the task body is wrapped in `async with sem:`, so the semaphore slot
is acquired first; then the device's DB status is re-read, and the SNMP poll
runs unless that status is `"down"` (a device row missing from the DB is
polled). -/
def sem_task_trace (db : DB) (info : DeviceInfo) : List SweepEvent :=
  [SweepEvent.acquireSlot info.id] ++
  (match db.devices.find? (fun d => decide (d.id = info.id)) with
   | some d =>
     [SweepEvent.checkStatus info.id (some d.status)] ++
       (if d.status = "down" then [SweepEvent.skipPoll info.id]
        else [SweepEvent.runPoll info.id])
   | none => [SweepEvent.checkStatus info.id none, SweepEvent.runPoll info.id]) ++
  [SweepEvent.releaseSlot info.id]

/-- The task list handed to the protocol-sweep pool (snmp_engine.py line
605): one `sem_task` per snapshot, built for every device regardless of its
status. -/
def sweepTaskPool (device_infos : List DeviceInfo) : List DeviceInfo := device_infos

/-- Embedding of the phase-A status update (snmp_engine.py lines 558-576):
for each ping result, mark the device up with a fresh last-seen or down with
last-seen cleared. -/
def pingUpdate (db : DB) (ping_results : List (Nat × String × Bool)) (now : Nat) : DB :=
  ping_results.foldl
    (fun db r =>
      { db with
        devices := updateFirst (fun d => decide (d.id = r.1))
          (fun d =>
            if r.2.2 then { d with status := "up", last_seen := some now }
            else { d with status := "down", last_seen := none })
          db.devices })
    db

/-- Identity of an `Interface` row: primary key, owning device, and stored
name — the fields the idempotent upsert must never change or duplicate. -/
def ifaceKey (i : Interface) : Nat × Nat × String := (i.id, i.device_id, i.interface_name)

/-- The (device, stripped name) pair a row is dictionary-keyed by. -/
def ifaceNameKey (i : Interface) : Nat × String := (i.device_id, pyStrip i.interface_name)

/-- Keys of an association-list dict. -/
def dictKeys {α : Type} (m : List (String × α)) : List String := m.map Prod.fst

/-- Number of `TopologyLink` rows matching one managed-destination tuple
(src device, src interface, resolved managed dst, dst interface). -/
def managedLinkCount (db : DB) (src : Nat) (src_iface : String) (dst : Nat)
    (dst_iface : String) : Nat :=
  db.links.countP (managedLinkPred src src_iface dst dst_iface)

/-- Number of `TopologyLink` rows whose destination is a discovered device. -/
def discoveredLinkCount (db : DB) : Nat :=
  db.links.countP (fun l => l.dst_discovered_device_id.isSome)

/-- Number of `TopologyLink` rows matching one unresolved-destination tuple
(src device, src interface, dst resolved to nothing, dst interface). -/
def unresolvedLinkCount (db : DB) (src : Nat) (src_iface dst_iface : String) : Nat :=
  db.links.countP (fun l =>
    decide (l.src_device_id = src ∧ l.src_interface = src_iface ∧ l.dst_device_id = none ∧
      l.dst_discovered_device_id = none ∧ l.dst_interface = dst_iface))

/-- Fixture: a managed device as the poll worker sees it. -/
def devA : Device where
  id := 1
  hostname := "core"
  ip_address := "10.0.0.1"
  snmp_community := "public"
  status := "up"
  last_seen := some 0
  lldp_hostname := none

/-- Fixture: inventory holding only `devA`. -/
def dbA : DB where
  devices := [devA]
  interfaces := []
  stats := []
  discovered := []
  links := []
  nextId := 100

/-- Fixture: the immutable snapshot of `devA`. -/
def infoA : DeviceInfo where
  id := 1
  hostname := "core"
  ip_address := "10.0.0.1"
  snmp_community := "public"

/-- Fixture: one interface `eth0`, with an LLDP neighbor announcing a
management address but an empty system name — the shape that reaches the
fallback link branch. -/
def wFallback : Walks where
  if_descr := some [("1.3.6.1.2.1.2.2.1.2.1", "eth0")]
  if_oper := some [("1.3.6.1.2.1.2.2.1.8.1", 1)]
  if_in := some []
  if_out := some []
  if_mac := some []
  lldp_sysnames := some [("1.0.8802.1.1.2.1.4.1.1.9.1", "")]
  lldp_portdesc := some [("1.0.8802.1.1.2.1.4.1.1.8.1", "ge-0/0/1")]
  lldp_manaddr := some [("1.0.8802.1.1.2.1.4.2.1.4.1", "10.9.9.9")]

/-- Fixture: one interface `eth0`, with an LLDP neighbor announcing a system
name but no management address — the shape that reaches the undefined
`device` reference on snmp_engine.py line 418. -/
def wNamed : Walks where
  if_descr := some [("1.3.6.1.2.1.2.2.1.2.1", "eth0")]
  if_oper := some [("1.3.6.1.2.1.2.2.1.8.1", 1)]
  if_in := some []
  if_out := some []
  if_mac := some []
  lldp_sysnames := some [("1.0.8802.1.1.2.1.4.1.1.9.1", "nbr-sw")]
  lldp_portdesc := some []
  lldp_manaddr := none

/-- Fixture: the description walk failed outright. -/
def wFailed : Walks where
  if_descr := none
  if_oper := some []
  if_in := some []
  if_out := some []
  if_mac := some []
  lldp_sysnames := some []
  lldp_portdesc := some []
  lldp_manaddr := some []

/-- Fixture: a device whose hostname the spec's backfill example uses. -/
def devB : Device where
  id := 2
  hostname := "core-sw1"
  ip_address := "10.0.0.2"
  snmp_community := "public"
  status := "up"
  last_seen := none
  lldp_hostname := none

/-- Fixture: an unresolved topology link with a plain label. -/
def linkU : TopologyLink where
  id := 7
  src_device_id := 1
  src_interface := "eth0"
  dst_device_id := none
  dst_discovered_device_id := none
  dst_hostname := some "CORE-SW1"
  dst_interface := "ge-0/0/1"
  last_seen := 0

/-- Fixture: an unresolved topology link labelled like a USB adapter. -/
def linkAdapterLabel : TopologyLink where
  id := 8
  src_device_id := 1
  src_interface := "eth1"
  dst_device_id := none
  dst_discovered_device_id := none
  dst_hostname := some "USB Ethernet Adapter #3"
  dst_interface := ""
  last_seen := 0

theorem dropWhile_dropWhile {p : Char → Bool} :
    ∀ l : List Char, (l.dropWhile p).dropWhile p = l.dropWhile p := by
  intro l
  induction l with
  | nil => rfl
  | cons x t ih =>
    by_cases h : p x <;> simp [List.dropWhile_cons, h, ih]

theorem length_dropWhile_le {α : Type} (p : α → Bool) :
    ∀ l : List α, (l.dropWhile p).length ≤ l.length := by
  intro l
  induction l with
  | nil => simp
  | cons x t ih =>
    rw [List.dropWhile_cons]
    split
    · exact le_trans ih (Nat.le_succ _)
    · simp

theorem dropWhile_fix_head {p : Char → Bool} {x : Char} {t : List Char}
    (h : (x :: t).dropWhile p = x :: t) : p x = false := by
  by_contra hx
  have hx' : p x = true := by revert hx; cases p x <;> simp
  have hlen := congrArg List.length h
  rw [List.dropWhile_cons, if_pos hx'] at hlen
  have hle := length_dropWhile_le p t
  simp at hlen
  omega

theorem rightTrim_fix {p : Char → Bool} :
    ∀ u : List Char, u.dropWhile p = u →
      ((u.reverse.dropWhile p).reverse).dropWhile p = (u.reverse.dropWhile p).reverse := by
  intro u hu
  cases u with
  | nil => simp
  | cons x t =>
    have hx : p x = false := dropWhile_fix_head hu
    rw [List.reverse_cons, List.dropWhile_append]
    by_cases he : ((t.reverse).dropWhile p).isEmpty <;>
      simp [he, List.dropWhile_cons, hx]

theorem pyStripList_idem : ∀ cs : List Char, pyStripList (pyStripList cs) = pyStripList cs := by
  intro cs
  unfold pyStripList
  have hufix : (cs.dropWhile isPyWs).dropWhile isPyWs = cs.dropWhile isPyWs :=
    dropWhile_dropWhile _
  have h1 := rightTrim_fix (cs.dropWhile isPyWs) hufix
  rw [h1, List.reverse_reverse, dropWhile_dropWhile]

theorem pyStrip_idem (s : String) : pyStrip (pyStrip s) = pyStrip s :=
  congrArg String.mk (pyStripList_idem s.data)

theorem map_updateFirst {α β : Type} (g : α → β) (p : α → Bool) (f : α → α)
    (hf : ∀ x, g (f x) = g x) : ∀ l : List α, (updateFirst p f l).map g = l.map g := by
  intro l
  induction l with
  | nil => rfl
  | cons x t ih => by_cases h : p x <;> simp [updateFirst, h, hf, ih]

theorem countP_updateFirst {α : Type} (pr : α → Bool) (p : α → Bool) (f : α → α)
    (hf : ∀ x, pr (f x) = pr x) : ∀ l : List α, (updateFirst p f l).countP pr = l.countP pr := by
  intro l
  induction l with
  | nil => rfl
  | cons x t ih => by_cases h : p x <;> simp [updateFirst, h, List.countP_cons, hf, ih]

theorem dictGet_isSome_iff {α : Type} (m : List (String × α)) (k : String) :
    (dictGet m k).isSome ↔ k ∈ dictKeys m := by
  simp [dictGet, dictKeys, List.find?_isSome, List.mem_map]

theorem mem_dictKeys_of_dictGet {α : Type} {m : List (String × α)} {k : String} {v : α}
    (h : dictGet m k = some v) : k ∈ dictKeys m := by
  rw [← dictGet_isSome_iff, h]
  rfl

theorem dictGet_none_of_not_mem {α : Type} {m : List (String × α)} {k : String}
    (h : k ∉ dictKeys m) : dictGet m k = none := by
  cases hg : dictGet m k with
  | none => rfl
  | some v => exact absurd (mem_dictKeys_of_dictGet hg) h

theorem dictKeys_dictSet_mem {α : Type} (m : List (String × α)) (k : String) (v : α)
    (a : String) : a ∈ dictKeys (dictSet m k v) ↔ a ∈ dictKeys m ∨ a = k := by
  unfold dictSet
  by_cases h : (m.find? (fun p => decide (p.1 = k))).isSome
  · rw [if_pos h]
    have hk : k ∈ dictKeys m := by
      rw [List.find?_isSome] at h
      obtain ⟨x, hx, he⟩ := h
      simp at he
      exact he ▸ List.mem_map_of_mem Prod.fst hx
    have hmap : (m.map (fun p => if p.1 = k then (k, v) else p)).map Prod.fst = m.map Prod.fst := by
      rw [List.map_map]
      apply List.map_congr_left
      intro x _
      by_cases hx : x.1 = k <;> simp [hx]
    constructor
    · intro ha
      exact Or.inl (by simpa [dictKeys, hmap] using ha)
    · rintro (ha | rfl)
      · simpa [dictKeys, hmap] using ha
      · simpa [dictKeys, hmap] using hk
  · rw [if_neg h]
    simp [dictKeys]

theorem foldl_dictSet_keys {α β : Type} (key : β → String) (val : β → α) :
    ∀ (l : List β) (init : List (String × α)) (a : String),
      (a ∈ dictKeys (l.foldl (fun d i => dictSet d (key i) (val i)) init) ↔
        a ∈ dictKeys init ∨ ∃ i ∈ l, key i = a) := by
  intro l
  induction l with
  | nil => simp
  | cons x t ih =>
    intro init a
    rw [List.foldl_cons, ih, dictKeys_dictSet_mem]
    simp [List.mem_cons]
    tauto

theorem mem_buildIfaceDict_iff (rows : List Interface) (did : Nat) (k : String) :
    k ∈ dictKeys (buildIfaceDict rows did) ↔ (did, k) ∈ rows.map ifaceNameKey := by
  unfold buildIfaceDict
  rw [foldl_dictSet_keys (fun i : Interface => pyStrip i.interface_name) (fun i => i.id)]
  simp [dictKeys, List.mem_filter, List.mem_map, ifaceNameKey, Prod.ext_iff]
  tauto

theorem markDeviceDown_frame (db : DB) (did : Nat) :
    (markDeviceDown db did).interfaces = db.interfaces ∧
    (markDeviceDown db did).stats = db.stats ∧
    (markDeviceDown db did).links = db.links ∧
    (markDeviceDown db did).discovered = db.discovered := by
  simp [markDeviceDown]

theorem markDeviceUp_frame (db : DB) (did now : Nat) :
    (markDeviceUp db did now).interfaces = db.interfaces ∧
    (markDeviceUp db did now).stats = db.stats ∧
    (markDeviceUp db did now).links = db.links ∧
    (markDeviceUp db did now).discovered = db.discovered := by
  simp [markDeviceUp]

theorem upsertInterface_frame (db : DB) (dict : List (String × Nat)) (did : Nat)
    (n st : String) (mac : Option String) (sp : Option Int) :
    (upsertInterface db dict did n st mac sp).1.links = db.links ∧
    (upsertInterface db dict did n st mac sp).1.devices = db.devices ∧
    (upsertInterface db dict did n st mac sp).1.discovered = db.discovered ∧
    (upsertInterface db dict did n st mac sp).1.stats = db.stats := by
  unfold upsertInterface
  cases dictGet dict n <;> simp

theorem upsertInterface_found (db : DB) (dict : List (String × Nat)) (did : Nat)
    (n st : String) (mac : Option String) (sp : Option Int) (iid : Nat)
    (h : dictGet dict n = some iid) :
    (upsertInterface db dict did n st mac sp).2.1 = dict ∧
    (upsertInterface db dict did n st mac sp).1.interfaces.map ifaceKey =
      db.interfaces.map ifaceKey ∧
    (upsertInterface db dict did n st mac sp).1.interfaces.map ifaceNameKey =
      db.interfaces.map ifaceNameKey := by
  unfold upsertInterface
  rw [h]
  dsimp only
  refine ⟨rfl, ?_, ?_⟩ <;> (apply map_updateFirst; intro x; rfl)

theorem upsertInterface_new (db : DB) (dict : List (String × Nat)) (did : Nat)
    (n st : String) (mac : Option String) (sp : Option Int)
    (h : dictGet dict n = none) :
    (upsertInterface db dict did n st mac sp).2.1 = dictSet dict n db.nextId ∧
    (upsertInterface db dict did n st mac sp).1.interfaces.map ifaceKey =
      db.interfaces.map ifaceKey ++ [(db.nextId, did, n)] ∧
    (upsertInterface db dict did n st mac sp).1.interfaces.map ifaceNameKey =
      db.interfaces.map ifaceNameKey ++ [(did, pyStrip n)] := by
  unfold upsertInterface
  rw [h]
  simp [ifaceKey, ifaceNameKey]

theorem findOrCreateDiscovered_frame (db : DB) (n ip : String) (now : Nat) :
    (findOrCreateDiscovered db n ip now).interfaces = db.interfaces ∧
    (findOrCreateDiscovered db n ip now).devices = db.devices ∧
    (findOrCreateDiscovered db n ip now).stats = db.stats ∧
    (findOrCreateDiscovered db n ip now).links = db.links := by
  unfold findOrCreateDiscovered
  split <;> simp

theorem upsertManagedLink_frame (db : DB) (src : Nat) (siface : String) (dst : Nat)
    (diface hn : String) (now : Nat) :
    (upsertManagedLink db src siface dst diface hn now).interfaces = db.interfaces ∧
    (upsertManagedLink db src siface dst diface hn now).devices = db.devices ∧
    (upsertManagedLink db src siface dst diface hn now).stats = db.stats ∧
    (upsertManagedLink db src siface dst diface hn now).discovered = db.discovered := by
  unfold upsertManagedLink
  split <;> simp

theorem addFallbackLink_frame (db : DB) (src : Nat) (siface hn diface : String) (now : Nat) :
    (addFallbackLink db src siface hn diface now).interfaces = db.interfaces ∧
    (addFallbackLink db src siface hn diface now).devices = db.devices ∧
    (addFallbackLink db src siface hn diface now).stats = db.stats ∧
    (addFallbackLink db src siface hn diface now).discovered = db.discovered := by
  simp [addFallbackLink]

theorem processNeighbor_frame (db : DB) (did : Nat) (n : String) (nb : Neighbor) (now : Nat) :
    (processNeighbor db did n nb now).interfaces = db.interfaces ∧
    (processNeighbor db did n nb now).devices = db.devices ∧
    (processNeighbor db did n nb now).stats = db.stats := by
  unfold processNeighbor
  cases hnd : lookupNeighborDevice db nb <;>
    by_cases hn : nb.neighbor_name ≠ "" <;> by_cases hip : nb.neighbor_ip ≠ "" <;>
      simp [hnd, hn, hip, findOrCreateDiscovered_frame, upsertManagedLink_frame,
        addFallbackLink_frame]

theorem managedLinkCount_eq_of_links {db1 db2 : DB} (h : db1.links = db2.links)
    (src : Nat) (siface : String) (dst : Nat) (diface : String) :
    managedLinkCount db1 src siface dst diface = managedLinkCount db2 src siface dst diface := by
  unfold managedLinkCount
  rw [h]

theorem discoveredLinkCount_eq_of_links {db1 db2 : DB} (h : db1.links = db2.links) :
    discoveredLinkCount db1 = discoveredLinkCount db2 := by
  unfold discoveredLinkCount
  rw [h]

theorem upsertManagedLink_managed_le (db : DB) (src : Nat) (siface : String) (dst : Nat)
    (diface hn : String) (now : Nat) (src' : Nat) (siface' : String) (dst' : Nat)
    (diface' : String) :
    managedLinkCount (upsertManagedLink db src siface dst diface hn now) src' siface' dst'
        diface' ≤
      max (managedLinkCount db src' siface' dst' diface') 1 := by
  unfold upsertManagedLink managedLinkCount
  by_cases hf : (db.links.find? (managedLinkPred src siface dst diface)).isSome
  · rw [if_pos hf]
    dsimp only
    rw [countP_updateFirst (managedLinkPred src' siface' dst' diface')
      (managedLinkPred src siface dst diface)
      (fun l => { l with last_seen := now }) (fun x => rfl) db.links]
    exact le_max_left _ _
  · rw [if_neg hf]
    dsimp only
    rw [List.countP_append]
    by_cases hp : managedLinkPred src' siface' dst' diface'
        { id := db.nextId, src_device_id := src, src_interface := siface,
          dst_device_id := some dst, dst_discovered_device_id := none,
          dst_interface := diface, dst_hostname := some hn, last_seen := now } = true
    · have heq : src = src' ∧ siface = siface' ∧ dst = dst' ∧ diface = diface' := by
        simpa [managedLinkPred] using hp
      obtain ⟨e1, e2, e3, e4⟩ := heq
      subst e1; subst e2; subst e3; subst e4
      have hnone : db.links.find? (managedLinkPred src siface dst diface) = none :=
        Option.not_isSome_iff_eq_none.mp hf
      have hzero : db.links.countP (managedLinkPred src siface dst diface) = 0 := by
        rw [List.countP_eq_zero]
        intro a ha
        have := List.find?_eq_none.mp hnone a ha
        simpa using this
      rw [hzero]
      simp [hp]
    · have hp' : managedLinkPred src' siface' dst' diface'
          { id := db.nextId, src_device_id := src, src_interface := siface,
            dst_device_id := some dst, dst_discovered_device_id := none,
            dst_interface := diface, dst_hostname := some hn, last_seen := now } = false := by
        revert hp; cases managedLinkPred src' siface' dst' diface' _ <;> simp
      simp [hp']

theorem upsertManagedLink_discovered_eq (db : DB) (src : Nat) (siface : String) (dst : Nat)
    (diface hn : String) (now : Nat) :
    discoveredLinkCount (upsertManagedLink db src siface dst diface hn now) =
      discoveredLinkCount db := by
  unfold upsertManagedLink discoveredLinkCount
  split
  · dsimp only
    rw [countP_updateFirst (fun l : TopologyLink => l.dst_discovered_device_id.isSome)
      (managedLinkPred src siface dst diface)
      (fun l => { l with last_seen := now }) (fun x => rfl) db.links]
  · dsimp only
    rw [List.countP_append]
    simp

theorem addFallbackLink_managed_eq (db : DB) (src : Nat) (siface hn diface : String)
    (now : Nat) (src' : Nat) (siface' : String) (dst' : Nat) (diface' : String) :
    managedLinkCount (addFallbackLink db src siface hn diface now) src' siface' dst' diface' =
      managedLinkCount db src' siface' dst' diface' := by
  unfold addFallbackLink managedLinkCount
  dsimp only
  rw [List.countP_append]
  simp [managedLinkPred]

theorem addFallbackLink_discovered_eq (db : DB) (src : Nat) (siface hn diface : String)
    (now : Nat) :
    discoveredLinkCount (addFallbackLink db src siface hn diface now) =
      discoveredLinkCount db := by
  unfold addFallbackLink discoveredLinkCount
  dsimp only
  rw [List.countP_append]
  simp

theorem processNeighbor_managed_le (db : DB) (did : Nat) (n : String) (nb : Neighbor)
    (now : Nat) (src' : Nat) (siface' : String) (dst' : Nat) (diface' : String) :
    managedLinkCount (processNeighbor db did n nb now) src' siface' dst' diface' ≤
      max (managedLinkCount db src' siface' dst' diface') 1 := by
  unfold processNeighbor
  cases hnd : lookupNeighborDevice db nb with
  | none =>
    by_cases hn : nb.neighbor_name ≠ ""
    · rw [if_pos ⟨rfl, hn⟩]
      rw [managedLinkCount_eq_of_links (findOrCreateDiscovered_frame db _ _ now).2.2.2]
      exact le_max_left _ _
    · rw [if_neg (by simp [hn])]
      by_cases hip : (none : Option Device).isSome = true ∨ nb.neighbor_ip ≠ "" ∨
          nb.neighbor_name ≠ ""
      · rw [if_pos hip]
        rw [addFallbackLink_managed_eq]
        exact le_max_left _ _
      · rw [if_neg hip]
        exact le_max_left _ _
  | some nd =>
    rw [if_neg (by simp)]
    rw [if_pos (Or.inl (by simp))]
    exact upsertManagedLink_managed_le db did n nd.id nb.neighbor_iface nb.neighbor_name now
      src' siface' dst' diface'

theorem processNeighbor_discovered_eq (db : DB) (did : Nat) (n : String) (nb : Neighbor)
    (now : Nat) :
    discoveredLinkCount (processNeighbor db did n nb now) = discoveredLinkCount db := by
  unfold processNeighbor
  cases hnd : lookupNeighborDevice db nb with
  | none =>
    by_cases hn : nb.neighbor_name ≠ ""
    · rw [if_pos ⟨rfl, hn⟩]
      exact discoveredLinkCount_eq_of_links (findOrCreateDiscovered_frame db _ _ now).2.2.2
    · rw [if_neg (by simp [hn])]
      by_cases hip : (none : Option Device).isSome = true ∨ nb.neighbor_ip ≠ "" ∨
          nb.neighbor_name ≠ ""
      · rw [if_pos hip]
        exact addFallbackLink_discovered_eq db did n nb.neighbor_name nb.neighbor_iface now
      · rw [if_neg hip]
  | some nd =>
    rw [if_neg (by simp)]
    rw [if_pos (Or.inl (by simp))]
    exact upsertManagedLink_discovered_eq db did n nd.id nb.neighbor_iface nb.neighbor_name now

theorem pollStep_links_shape (ctx : PollCtx) (s : DB × List (String × Nat))
    (e : String × String) :
    (pollStep ctx s e).1.links = s.1.links ∨
    ∃ db2 : DB, ∃ nb : Neighbor,
      (pollStep ctx s e).1 =
        processNeighbor db2 ctx.device_id (pyStrip (removeNul e.2)) nb ctx.now ∧
      db2.links = s.1.links := by
  obtain ⟨db, dict⟩ := s
  obtain ⟨oid, nv⟩ := e
  unfold pollStep
  simp only [oid_index]
  cases hnb : dictGet ctx.neighbors ((pySplitOnDot oid).getLastD "") with
  | none =>
    exact Or.inl (upsertInterface_frame _ _ _ _ _ _ _).1
  | some nb =>
    exact Or.inr ⟨_, nb, rfl, (upsertInterface_frame _ _ _ _ _ _ _).1⟩

theorem pollStep_managed_le (ctx : PollCtx) (s : DB × List (String × Nat))
    (e : String × String) (src' : Nat) (siface' : String) (dst' : Nat) (diface' : String) :
    managedLinkCount (pollStep ctx s e).1 src' siface' dst' diface' ≤
      max (managedLinkCount s.1 src' siface' dst' diface') 1 := by
  rcases pollStep_links_shape ctx s e with h | ⟨db2, nb, heq, hlk⟩
  · rw [managedLinkCount_eq_of_links h]
    exact le_max_left _ _
  · rw [heq, ← managedLinkCount_eq_of_links hlk src' siface' dst' diface']
    exact processNeighbor_managed_le db2 ctx.device_id _ nb ctx.now src' siface' dst' diface'

theorem pollStep_discovered_eq (ctx : PollCtx) (s : DB × List (String × Nat))
    (e : String × String) :
    discoveredLinkCount (pollStep ctx s e).1 = discoveredLinkCount s.1 := by
  rcases pollStep_links_shape ctx s e with h | ⟨db2, nb, heq, hlk⟩
  · exact discoveredLinkCount_eq_of_links h
  · rw [heq, ← discoveredLinkCount_eq_of_links hlk]
    exact processNeighbor_discovered_eq db2 ctx.device_id _ nb ctx.now

theorem foldl_count_le {σ ε : Type} (g : σ → Nat) (step : σ → ε → σ)
    (hstep : ∀ s e, g (step s e) ≤ max (g s) 1) :
    ∀ (l : List ε) (s : σ), g (l.foldl step s) ≤ max (g s) 1 := by
  intro l
  induction l with
  | nil => intro s; exact le_max_left _ _
  | cons e t ih =>
    intro s
    rw [List.foldl_cons]
    refine le_trans (ih (step s e)) ?_
    refine le_trans (max_le_max (hstep s e) le_rfl) ?_
    rw [max_assoc, max_self]

theorem foldl_count_eq {σ ε : Type} (g : σ → Nat) (step : σ → ε → σ)
    (hstep : ∀ s e, g (step s e) = g s) :
    ∀ (l : List ε) (s : σ), g (l.foldl step s) = g s := by
  intro l
  induction l with
  | nil => intro s; rfl
  | cons e t ih =>
    intro s
    rw [List.foldl_cons, ih, hstep]

theorem pollStep_found (ctx : PollCtx) (s : DB × List (String × Nat)) (e : String × String)
    (iid : Nat) (h : dictGet s.2 (pyStrip (removeNul e.2)) = some iid) :
    (pollStep ctx s e).2 = s.2 ∧
    (pollStep ctx s e).1.interfaces.map ifaceKey = s.1.interfaces.map ifaceKey ∧
    (pollStep ctx s e).1.interfaces.map ifaceNameKey = s.1.interfaces.map ifaceNameKey := by
  obtain ⟨db, dict⟩ := s
  obtain ⟨oid, nv⟩ := e
  unfold pollStep
  simp only [oid_index]
  obtain ⟨h1, h2, h3⟩ := upsertInterface_found db dict ctx.device_id (pyStrip (removeNul nv))
    (ifOperStatus ctx ((pySplitOnDot oid).getLastD ""))
    (ifMacValue ctx ((pySplitOnDot oid).getLastD ""))
    (ifSpeed ctx ((pySplitOnDot oid).getLastD "")) iid h
  cases hnb : dictGet ctx.neighbors ((pySplitOnDot oid).getLastD "") with
  | none => exact ⟨h1, h2, h3⟩
  | some nb =>
    refine ⟨h1, ?_, ?_⟩
    · rw [(processNeighbor_frame _ _ _ _ _).1]
      exact h2
    · rw [(processNeighbor_frame _ _ _ _ _).1]
      exact h3

theorem pollStep_new (ctx : PollCtx) (s : DB × List (String × Nat)) (e : String × String)
    (h : dictGet s.2 (pyStrip (removeNul e.2)) = none) :
    (pollStep ctx s e).2 = dictSet s.2 (pyStrip (removeNul e.2)) s.1.nextId ∧
    (pollStep ctx s e).1.interfaces.map ifaceKey =
      s.1.interfaces.map ifaceKey ++
        [(s.1.nextId, ctx.device_id, pyStrip (removeNul e.2))] ∧
    (pollStep ctx s e).1.interfaces.map ifaceNameKey =
      s.1.interfaces.map ifaceNameKey ++ [(ctx.device_id, pyStrip (removeNul e.2))] := by
  obtain ⟨db, dict⟩ := s
  obtain ⟨oid, nv⟩ := e
  unfold pollStep
  simp only [oid_index]
  obtain ⟨h1, h2, h3⟩ := upsertInterface_new db dict ctx.device_id (pyStrip (removeNul nv))
    (ifOperStatus ctx ((pySplitOnDot oid).getLastD ""))
    (ifMacValue ctx ((pySplitOnDot oid).getLastD ""))
    (ifSpeed ctx ((pySplitOnDot oid).getLastD "")) h
  rw [pyStrip_idem] at h3
  cases hnb : dictGet ctx.neighbors ((pySplitOnDot oid).getLastD "") with
  | none => exact ⟨h1, h2, h3⟩
  | some nb =>
    refine ⟨h1, ?_, ?_⟩
    · rw [(processNeighbor_frame _ _ _ _ _).1]
      exact h2
    · rw [(processNeighbor_frame _ _ _ _ _).1]
      exact h3

theorem pollFold_main (ctx : PollCtx) :
    ∀ (entries : List (String × String)) (s : DB × List (String × Nat)),
      (∀ k ∈ dictKeys s.2, (ctx.device_id, k) ∈ s.1.interfaces.map ifaceNameKey) →
      ((∃ created : List (Nat × Nat × String),
          (entries.foldl (pollStep ctx) s).1.interfaces.map ifaceKey =
            s.1.interfaces.map ifaceKey ++ created ∧
          ∀ c ∈ created, c.2.1 = ctx.device_id ∧ c.2.2 ∉ dictKeys s.2 ∧
            pyStrip c.2.2 = c.2.2) ∧
       (∀ k ∈ dictKeys s.2, k ∈ dictKeys (entries.foldl (pollStep ctx) s).2) ∧
       (∀ k ∈ dictKeys (entries.foldl (pollStep ctx) s).2,
          (ctx.device_id, k) ∈ (entries.foldl (pollStep ctx) s).1.interfaces.map ifaceNameKey) ∧
       (∀ e ∈ entries, pyStrip (removeNul e.2) ∈
          dictKeys (entries.foldl (pollStep ctx) s).2)) := by
  intro entries
  induction entries with
  | nil =>
    intro s hInv
    exact ⟨⟨[], by simp, by simp⟩, fun k hk => hk, hInv, by simp⟩
  | cons e t ih =>
    intro s hInv
    rw [List.foldl_cons]
    cases hg : dictGet s.2 (pyStrip (removeNul e.2)) with
    | some iid =>
      obtain ⟨h1, h2, h3⟩ := pollStep_found ctx s e iid hg
      have hInv1 : ∀ k ∈ dictKeys (pollStep ctx s e).2,
          (ctx.device_id, k) ∈ (pollStep ctx s e).1.interfaces.map ifaceNameKey := by
        rw [h1, h3]
        exact hInv
      obtain ⟨⟨created, hc1, hc2⟩, hmono, hinvf, hnames⟩ := ih (pollStep ctx s e) hInv1
      refine ⟨⟨created, ?_, ?_⟩, ?_, hinvf, ?_⟩
      · rw [hc1, h2]
      · intro c hc
        obtain ⟨ha, hb, hcc⟩ := hc2 c hc
        rw [h1] at hb
        exact ⟨ha, hb, hcc⟩
      · intro k hk
        exact hmono k (by rw [h1]; exact hk)
      · intro e' he'
        rcases List.mem_cons.mp he' with rfl | he''
        · exact hmono _ (by rw [h1]; exact mem_dictKeys_of_dictGet hg)
        · exact hnames e' he''
    | none =>
      obtain ⟨h1, h2, h3⟩ := pollStep_new ctx s e hg
      have hInv1 : ∀ k ∈ dictKeys (pollStep ctx s e).2,
          (ctx.device_id, k) ∈ (pollStep ctx s e).1.interfaces.map ifaceNameKey := by
        rw [h1, h3]
        intro k hk
        rcases (dictKeys_dictSet_mem _ _ _ k).mp hk with hk' | rfl
        · exact List.mem_append_left _ (hInv k hk')
        · exact List.mem_append_right _ (by simp)
      obtain ⟨⟨created, hc1, hc2⟩, hmono, hinvf, hnames⟩ := ih (pollStep ctx s e) hInv1
      refine ⟨⟨(s.1.nextId, ctx.device_id, pyStrip (removeNul e.2)) :: created, ?_, ?_⟩, ?_,
        hinvf, ?_⟩
      · rw [hc1, h2, List.append_assoc]
        rfl
      · intro c hc
        rcases List.mem_cons.mp hc with rfl | hc'
        · refine ⟨rfl, ?_, pyStrip_idem _⟩
          intro hmem
          have := (dictGet_isSome_iff s.2 (pyStrip (removeNul e.2))).mpr hmem
          rw [hg] at this
          simp at this
        · obtain ⟨ha, hb, hcc⟩ := hc2 c hc'
          refine ⟨ha, ?_, hcc⟩
          intro hmem
          exact hb (by rw [h1]; exact (dictKeys_dictSet_mem _ _ _ _).mpr (Or.inl hmem))
      · intro k hk
        exact hmono k (by rw [h1]; exact (dictKeys_dictSet_mem _ _ _ _).mpr (Or.inl hk))
      · intro e' he'
        rcases List.mem_cons.mp he' with rfl | he''
        · exact hmono _ (by rw [h1]; exact (dictKeys_dictSet_mem _ _ _ _).mpr (Or.inr rfl))
        · exact hnames e' he''

theorem pollFold_preserve (ctx : PollCtx) :
    ∀ (entries : List (String × String)) (s : DB × List (String × Nat)),
      (∀ e ∈ entries, pyStrip (removeNul e.2) ∈ dictKeys s.2) →
      ((entries.foldl (pollStep ctx) s).1.interfaces.map ifaceKey =
          s.1.interfaces.map ifaceKey ∧
        (entries.foldl (pollStep ctx) s).2 = s.2) := by
  intro entries
  induction entries with
  | nil => intro s _; exact ⟨rfl, rfl⟩
  | cons e t ih =>
    intro s hmem
    have hname := hmem e (List.mem_cons_self _ _)
    rw [← dictGet_isSome_iff] at hname
    obtain ⟨iid, hg⟩ := Option.isSome_iff_exists.mp hname
    obtain ⟨h1, h2, h3⟩ := pollStep_found ctx s e iid hg
    rw [List.foldl_cons]
    have ihs := ih (pollStep ctx s e)
      (fun e' he' => by rw [h1]; exact hmem e' (List.mem_cons_of_mem _ he'))
    exact ⟨ihs.1.trans h2, ihs.2.trans h1⟩

/-- C8: re-polling a device whose decoded output is identical to the previous
successful cycle never creates a second `Interface` row for an existing
(device, interface name) pair. First conjunct: a second poll with the same
walks leaves the list of interface-row identities (id, owning device, name)
unchanged — updates happen in place. Second conjunct: a single poll only
appends rows, each owned by the polled device and carrying a name that had
no row for that device before the poll. -/
theorem c8_interface_upsert_idempotent :
    ∀ (db : DB) (info : DeviceInfo) (w : Walks) (now1 now2 : Nat) (interval : Int),
      ((poll_device (poll_device db info w now1 interval) info w now2 interval).interfaces.map
          ifaceKey =
        (poll_device db info w now1 interval).interfaces.map ifaceKey) ∧
      (∃ created : List (Nat × Nat × String),
        (poll_device db info w now1 interval).interfaces.map ifaceKey =
          db.interfaces.map ifaceKey ++ created ∧
        ∀ c ∈ created, c.2.1 = info.id ∧
          (info.id, pyStrip c.2.2) ∉ db.interfaces.map ifaceNameKey) := by
  intro db info w now1 now2 interval
  by_cases htarget : info.ip_address = ""
  · have hid : ∀ (d : DB) (t : Nat), poll_device d info w t interval = d := by
      intro d t
      simp [poll_device, htarget]
    refine ⟨by simp [hid], [], by simp [hid], by simp⟩
  · cases hdescr : w.if_descr with
    | none =>
      have hmd : ∀ (d : DB) (t : Nat), poll_device d info w t interval =
          markDeviceDown d info.id := by
        intro d t
        simp [poll_device, htarget, hdescr]
      simp only [hmd]
      refine ⟨?_, [], ?_, by simp⟩
      · rw [(markDeviceDown_frame _ _).1]
      · rw [(markDeviceDown_frame _ _).1]
        simp
    | some descr =>
      by_cases hempty : descr = []
      · have hmd : ∀ (d : DB) (t : Nat), poll_device d info w t interval =
            markDeviceDown d info.id := by
          intro d t
          simp [poll_device, htarget, hdescr, hempty]
        simp only [hmd]
        refine ⟨?_, [], ?_, by simp⟩
        · rw [(markDeviceDown_frame _ _).1]
        · rw [(markDeviceDown_frame _ _).1]
          simp
      · have hexp : ∀ (d : DB) (t : Nat), poll_device d info w t interval =
            markDeviceUp (descr.foldl (pollStep (ctxOf info w t interval))
              (d, buildIfaceDict d.interfaces info.id)).1 info.id t := by
          intro d t
          simp [poll_device, htarget, hdescr, hempty]
        have hInv0 : ∀ k ∈ dictKeys (buildIfaceDict db.interfaces info.id),
            ((ctxOf info w now1 interval).device_id, k) ∈
              ((db, buildIfaceDict db.interfaces info.id) :
                DB × List (String × Nat)).1.interfaces.map ifaceNameKey :=
          fun k hk => (mem_buildIfaceDict_iff _ _ _).mp hk
        obtain ⟨⟨created, hc1, hc2⟩, _, hP3, hP4⟩ :=
          pollFold_main (ctxOf info w now1 interval) descr
            (db, buildIfaceDict db.interfaces info.id) hInv0
        constructor
        · -- second identical poll: every decoded name already has a row
          have hnames1 : ∀ e ∈ descr, (info.id, pyStrip (removeNul e.2)) ∈
              (poll_device db info w now1 interval).interfaces.map ifaceNameKey := by
            intro e he
            rw [hexp db now1, (markDeviceUp_frame _ _ _).1]
            exact hP3 _ (hP4 e he)
          have hpres := pollFold_preserve (ctxOf info w now2 interval) descr
            (poll_device db info w now1 interval,
              buildIfaceDict (poll_device db info w now1 interval).interfaces info.id)
            (fun e he => (mem_buildIfaceDict_iff _ _ _).mpr (hnames1 e he))
          rw [hexp (poll_device db info w now1 interval) now2, (markDeviceUp_frame _ _ _).1]
          exact hpres.1
        · refine ⟨created, ?_, ?_⟩
          · rw [hexp db now1, (markDeviceUp_frame _ _ _).1]
            exact hc1
          · intro c hc
            obtain ⟨ha, hb, hcc⟩ := hc2 c hc
            refine ⟨ha, ?_⟩
            rw [hcc]
            intro hmem
            exact hb ((mem_buildIfaceDict_iff _ _ _).mpr hmem)

/-- C1 (amended): for links whose destination resolves to a managed device,
the upsert keeps at most one row per (src device, src interface, dst device,
dst interface) tuple: a poll cycle never grows the row count for such a
tuple beyond `max` of its previous count and one (re-observation refreshes
last-seen instead of inserting), and no poll cycle ever creates a link whose
destination is a discovered device (the handler raises at the undefined
`device` name before reaching that branch). Links whose destination stays
unresolved are exempt: the fallback branch inserts without deduplication
(see the counterexample). -/
theorem c1_managed_link_unique :
    ∀ (db : DB) (info : DeviceInfo) (w : Walks) (now : Nat) (interval : Int)
      (src : Nat) (siface : String) (dst : Nat) (diface : String),
      managedLinkCount (poll_device db info w now interval) src siface dst diface ≤
        max (managedLinkCount db src siface dst diface) 1 ∧
      discoveredLinkCount (poll_device db info w now interval) = discoveredLinkCount db := by
  intro db info w now interval src siface dst diface
  by_cases htarget : info.ip_address = ""
  · have hid : poll_device db info w now interval = db := by
      simp [poll_device, htarget]
    rw [hid]
    exact ⟨le_max_left _ _, rfl⟩
  · cases hdescr : w.if_descr with
    | none =>
      have hmd : poll_device db info w now interval = markDeviceDown db info.id := by
        simp [poll_device, htarget, hdescr]
      rw [hmd]
      constructor
      · rw [managedLinkCount_eq_of_links (markDeviceDown_frame _ _).2.2.1]
        exact le_max_left _ _
      · exact discoveredLinkCount_eq_of_links (markDeviceDown_frame _ _).2.2.1
    | some descr =>
      by_cases hempty : descr = []
      · have hmd : poll_device db info w now interval = markDeviceDown db info.id := by
          simp [poll_device, htarget, hdescr, hempty]
        rw [hmd]
        constructor
        · rw [managedLinkCount_eq_of_links (markDeviceDown_frame _ _).2.2.1]
          exact le_max_left _ _
        · exact discoveredLinkCount_eq_of_links (markDeviceDown_frame _ _).2.2.1
      · have hexp : poll_device db info w now interval =
            markDeviceUp (descr.foldl (pollStep (ctxOf info w now interval))
              (db, buildIfaceDict db.interfaces info.id)).1 info.id now := by
          simp [poll_device, htarget, hdescr, hempty]
        rw [hexp]
        constructor
        · rw [managedLinkCount_eq_of_links (markDeviceUp_frame _ _ _).2.2.1]
          exact foldl_count_le
            (fun s : DB × List (String × Nat) => managedLinkCount s.1 src siface dst diface)
            (pollStep (ctxOf info w now interval))
            (fun s e => pollStep_managed_le _ s e src siface dst diface)
            descr (db, buildIfaceDict db.interfaces info.id)
        · rw [discoveredLinkCount_eq_of_links (markDeviceUp_frame _ _ _).2.2.1]
          exact foldl_count_eq
            (fun s : DB × List (String × Nat) => discoveredLinkCount s.1)
            (pollStep (ctxOf info w now interval))
            (fun s e => pollStep_discovered_eq _ s e)
            descr (db, buildIfaceDict db.interfaces info.id)

/-- C1 counterexample: the claim as stated fails when the resolved destination
is none. Device 1 reports interface `eth0` with an LLDP neighbor announcing
a management address `10.9.9.9` (matching no managed device) and an empty
system name; the fallback branch inserts a fresh unresolved `TopologyLink`
on every cycle, so after observing the same adjacency in two cycles two rows
exist for the (src 1, `eth0`, dst none, `ge-0/0/1`) tuple — the claim
requires at most one, with re-observation only refreshing last-seen. -/
theorem c1_counterexample :
    unresolvedLinkCount (poll_device (poll_device dbA infoA wFallback 10 5) infoA wFallback 20 5)
      1 "eth0" "ge-0/0/1" = 2 := by decide

/-- C2 (code-bug evidence): device 1 (discovered-hostname unset) polls
interface `eth0` whose LLDP neighbor announces the name `nbr-sw` and no
management address, matching no managed device. The find-or-create half of
the claim happens — a `DiscoveredDevice` keyed `nbr-sw` is created with
first-seen = last-seen = now — but the polled device's discovered-hostname
is never set (it stays `none`) and no topology link is written for the
interface, because snmp_engine.py line 418 reads the undefined name
`device` and the NameError aborts the interface's handling. -/
theorem c2_name_error_loses_hostname :
    ((poll_device dbA infoA wNamed 10 5).discovered.map (fun dd => dd.lldp_hostname) =
      ["nbr-sw"]) ∧
    ((poll_device dbA infoA wNamed 10 5).discovered.map
      (fun dd => (dd.first_seen, dd.last_seen)) = [(10, 10)]) ∧
    ((poll_device dbA infoA wNamed 10 5).devices.map (fun d => d.lldp_hostname) = [none]) ∧
    (poll_device dbA infoA wNamed 10 5).links = [] := by decide

/-- C3: if the interface-description walk fails (`none`) or returns empty,
the poll worker sets the device's status to "down", clears its last-seen,
persists that change, and stops: no `Interface`, `InterfaceStats`,
`TopologyLink` or `DiscoveredDevice` row is written for that device in that
cycle. -/
theorem c3_down_on_failed_descr (db : DB) (info : DeviceInfo) (w : Walks) (now : Nat)
    (interval : Int) (htarget : info.ip_address ≠ "")
    (hdescr : w.if_descr = none ∨ w.if_descr = some []) :
    (poll_device db info w now interval).interfaces = db.interfaces ∧
    (poll_device db info w now interval).stats = db.stats ∧
    (poll_device db info w now interval).links = db.links ∧
    (poll_device db info w now interval).discovered = db.discovered ∧
    (poll_device db info w now interval).devices =
      updateFirst (fun d => decide (d.id = info.id))
        (fun d => { d with status := "down", last_seen := none }) db.devices := by
  rcases hdescr with h | h <;> simp [poll_device, htarget, h, markDeviceDown]

/-- C3 witness: the general theorem applied to device 1 with a failed
description walk. -/
theorem c3_witness :
    infoA.ip_address ≠ "" ∧
    (poll_device dbA infoA wFailed 5 5).interfaces = dbA.interfaces ∧
    (poll_device dbA infoA wFailed 5 5).stats = dbA.stats ∧
    (poll_device dbA infoA wFailed 5 5).devices =
      updateFirst (fun d => decide (d.id = infoA.id))
        (fun d => { d with status := "down", last_seen := none }) dbA.devices := by
  refine ⟨by decide, ?_, ?_, ?_⟩
  · exact (c3_down_on_failed_descr dbA infoA wFailed 5 5 (by decide) (Or.inl rfl)).1
  · exact (c3_down_on_failed_descr dbA infoA wFailed 5 5 (by decide) (Or.inl rfl)).2.1
  · exact (c3_down_on_failed_descr dbA infoA wFailed 5 5 (by decide) (Or.inl rfl)).2.2.2.2

/-- C4 counterexample: the claim requires any input that is neither an
already-formatted string nor a raw 6-byte sequence to yield null, and
already colon-formatted strings to pass through unchanged. A 7-byte raw
value is rendered from its first 6 bytes instead of yielding null, and a
colon string with surrounding whitespace is returned stripped, not
unchanged. -/
theorem c4_counterexample :
    format_mac_address (some (MacVal.vbytes [170, 187, 204, 221, 238, 255, 1])) =
      some "aa:bb:cc:dd:ee:ff" ∧
    format_mac_address (some (MacVal.vstr " aa:bb:cc:dd:ee:ff ")) =
      some "aa:bb:cc:dd:ee:ff" := by decide

/-- C4 (amended): a raw byte sequence of length at least 6 is rendered as
lowercase colon-separated hex of its first 6 bytes (so exactly 6 bytes give
exactly their hex); a string that still contains a colon after null-byte
removal and whitespace stripping is returned in that cleaned form; `None`,
sequences shorter than 6 bytes, and strings that clean to empty yield
null. -/
theorem c4_mac_formatting :
    (format_mac_address (some (MacVal.vbytes [170, 187, 204, 221, 238, 255])) =
      some "aa:bb:cc:dd:ee:ff") ∧
    (∀ bs : List Nat, bs ≠ [] → 6 ≤ bs.length →
      format_mac_address (some (MacVal.vbytes bs)) = some (macHex (bs.take 6))) ∧
    (∀ s : String, s ≠ "" → pyStrip (removeNul s) ≠ "" →
      (pyStrip (removeNul s)).data.contains ':' = true →
      format_mac_address (some (MacVal.vstr s)) = some (pyStrip (removeNul s))) ∧
    (format_mac_address none = none) ∧
    (∀ bs : List Nat, bs.length < 6 → format_mac_address (some (MacVal.vbytes bs)) = none) ∧
    (∀ s : String, pyStrip (removeNul s) = "" →
      format_mac_address (some (MacVal.vstr s)) = none) := by
  refine ⟨by decide, ?_, ?_, rfl, ?_, ?_⟩
  · intro bs hne hlen
    simp [format_mac_address, pyTruthyMac, hne, hlen]
  · intro s hs hs1 hcol
    simp [format_mac_address, pyTruthyMac, hs, hs1, hcol]
    intro hmem
    exact absurd (by simpa using hcol) hmem
  · intro bs hlen
    by_cases hbs : bs = []
    · subst hbs
      simp [format_mac_address, pyTruthyMac]
    · have : ¬ (6 ≤ bs.length) := by omega
      simp [format_mac_address, pyTruthyMac, hbs, this]
  · intro s hstrip
    by_cases hs : s = ""
    · subst hs
      simp [format_mac_address, pyTruthyMac]
    · simp [format_mac_address, pyTruthyMac, hs, hstrip]

/-- C4 witness: the amended theorem applied to a 7-byte raw value and to a
padded colon string. -/
theorem c4_witness :
    (([1, 2, 3, 4, 5, 6, 7] : List Nat) ≠ [] ∧ 6 ≤ ([1, 2, 3, 4, 5, 6, 7] : List Nat).length ∧
      format_mac_address (some (MacVal.vbytes [1, 2, 3, 4, 5, 6, 7])) =
        some (macHex (([1, 2, 3, 4, 5, 6, 7] : List Nat).take 6))) ∧
    (([] : List Nat).length < 6 ∧ format_mac_address (some (MacVal.vbytes [])) = none) :=
  ⟨⟨by decide, by decide, c4_mac_formatting.2.1 [1, 2, 3, 4, 5, 6, 7] (by decide) (by decide)⟩,
   ⟨by decide, c4_mac_formatting.2.2.2.2.1 [] (by decide)⟩⟩

/-- C5: the backfill matcher tries its five strategies in strict priority
order and stops at the first hit — the code's candidate resolution equals
the first `some` of the ordered strategy list (the spec-modelled
`backfillCandidateSpec`); in particular, a label equal case-insensitively to
a device hostname resolves to the first such device with reason "exact". -/
theorem c5_strategy_priority :
    (∀ (devices : List Device) (ifaces : List Interface) (dst_name : String),
      backfillCandidate devices ifaces dst_name =
        backfillCandidateSpec devices ifaces dst_name) ∧
    (∀ (devices : List Device) (ifaces : List Interface) (dst_name : String) (d : Device),
      dst_name ≠ "" →
      devices.find?
          (fun d => decide (d.hostname ≠ "" ∧ pyLower d.hostname = pyLower dst_name)) =
        some d →
      backfillCandidate devices ifaces dst_name = some (d, "exact")) := by
  constructor
  · intro devices ifaces dst_name
    unfold backfillCandidate backfillCandidateSpec
    cases strategyExact devices dst_name <;>
      cases strategyShort devices dst_name <;>
        cases strategyContains devices dst_name <;>
          cases strategyIp devices dst_name <;>
            cases strategyMac devices ifaces dst_name <;>
              simp [List.findSome?]
  · intro devices ifaces dst_name d hne hfind
    unfold backfillCandidate strategyExact
    rw [if_pos hne, hfind]
    rfl

/-- C5 witness: the spec's own example — hostname "core-sw1", label
"CORE-SW1" — resolves via strategy 1 with reason "exact". -/
theorem c5_witness :
    ("CORE-SW1" : String) ≠ "" ∧
    [devB].find?
        (fun d => decide (d.hostname ≠ "" ∧ pyLower d.hostname = pyLower "CORE-SW1")) =
      some devB ∧
    backfillCandidate [devB] [] "CORE-SW1" = some (devB, "exact") :=
  ⟨by decide, by decide, c5_strategy_priority.2 [devB] [] "CORE-SW1" devB (by decide) (by decide)⟩

/-- C6: a link whose stripped label contains "adapter", "fw_version" or
"firmware" case-insensitively is skipped entirely by the backfill matcher:
the link is returned unmodified with no suggestion, so none of the five
strategies can resolve it to any device. -/
theorem c6_marker_skip (devices : List Device) (ifaces : List Interface) (dry : Bool)
    (link : TopologyLink)
    (h : hasNonDeviceMarker (pyStrip (link.dst_hostname.getD "")) = true) :
    processLink devices ifaces dry link = (link, none) := by
  simp [processLink, h]

/-- C6 witness: the spec's example label "USB Ethernet Adapter #3" is
skipped even with devices present. -/
theorem c6_witness :
    hasNonDeviceMarker (pyStrip (linkAdapterLabel.dst_hostname.getD "")) = true ∧
    processLink [devA, devB] [] false linkAdapterLabel = (linkAdapterLabel, none) :=
  ⟨by decide, c6_marker_skip [devA, devB] [] false linkAdapterLabel (by decide)⟩

/-- C7 (amended): every device snapshot is handed to the protocol-sweep task
pool; each task acquires its concurrency slot first and only then re-checks
the device's DB status, and it returns without any protocol poll when that
status is "down" — so a device marked down by the reachability phase
briefly consumes a slot but is never protocol-polled. -/
theorem c7_down_not_polled :
    (∀ infos : List DeviceInfo, sweepTaskPool infos = infos) ∧
    (∀ (db : DB) (info : DeviceInfo),
      ∃ rest : List SweepEvent,
        sem_task_trace db info =
          SweepEvent.acquireSlot info.id ::
            SweepEvent.checkStatus info.id (statusOf db info.id) :: rest) ∧
    (∀ (db : DB) (res : List (Nat × String × Bool)) (now : Nat) (info : DeviceInfo),
      statusOf (pingUpdate db res now) info.id = some "down" →
      SweepEvent.runPoll info.id ∉ sem_task_trace (pingUpdate db res now) info) := by
  refine ⟨fun _ => rfl, ?_, ?_⟩
  · intro db info
    unfold sem_task_trace statusOf
    cases h : db.devices.find? (fun d => decide (d.id = info.id)) <;> exact ⟨_, rfl⟩
  · intro db res now info h
    unfold statusOf at h
    cases hf : (pingUpdate db res now).devices.find? (fun d => decide (d.id = info.id)) with
    | none =>
      rw [hf] at h
      simp at h
    | some d =>
      rw [hf] at h
      simp at h
      unfold sem_task_trace
      rw [hf]
      simp [h]

/-- C7 witness: device 1 is marked down by the reachability update, and the
applied theorem shows its task never runs a protocol poll. -/
theorem c7_witness :
    statusOf (pingUpdate dbA [(1, "10.0.0.1", false)] 5) infoA.id = some "down" ∧
    SweepEvent.runPoll infoA.id ∉
      sem_task_trace (pingUpdate dbA [(1, "10.0.0.1", false)] 5) infoA :=
  ⟨by decide, c7_down_not_polled.2.2 dbA [(1, "10.0.0.1", false)] 5 infoA (by decide)⟩

/-- C7 counterexample: with device 1 marked down by the reachability phase,
its snapshot is still passed into the protocol-sweep task pool, and the
task's first event is acquiring the concurrency slot — the status re-check
happens only after a slot is consumed, not "immediately before a slot is
consumed" as the claim states (the protocol poll itself is skipped). -/
theorem c7_counterexample :
    sweepTaskPool [infoA] = [infoA] ∧
    sem_task_trace (pingUpdate dbA [(1, "10.0.0.1", false)] 5) infoA =
      [SweepEvent.acquireSlot 1, SweepEvent.checkStatus 1 (some "down"),
        SweepEvent.skipPoll 1, SweepEvent.releaseSlot 1] := by decide

/-- C9: `calc_bps` is total and non-negative: on numeric inputs with a
non-zero interval it returns `max ((new - old) * 8 / interval) 0`; a zero
interval or a non-numeric argument makes the expression raise, and the
handler returns 0; the result — and hence the derived interface speed
`int(calc_bps(...))` — is never negative. -/
theorem c9_calc_bps_total_nonneg :
    (∀ o n i : ℚ, i ≠ 0 → calc_bps (some o) (some n) (some i) = max ((n - o) * 8 / i) 0) ∧
    (∀ o n : ℚ, calc_bps (some o) (some n) (some 0) = 0) ∧
    (∀ o n i : Option ℚ, o = none ∨ n = none ∨ i = none → calc_bps o n i = 0) ∧
    (∀ o n i : Option ℚ, 0 ≤ calc_bps o n i) ∧
    (∀ o n i : Option ℚ, 0 ≤ pyInt (calc_bps o n i)) := by
  have hnn : ∀ o n i : Option ℚ, 0 ≤ calc_bps o n i := by
    intro o n i
    rcases o with _ | o
    · simp [calc_bps]
    rcases n with _ | n
    · simp [calc_bps]
    rcases i with _ | i
    · simp [calc_bps]
    · simp only [calc_bps]
      split
      · exact le_refl 0
      · exact le_max_right _ _
  refine ⟨?_, ?_, ?_, hnn, ?_⟩
  · intro o n i hi
    simp [calc_bps, hi]
  · intro o n
    simp [calc_bps]
  · intro o n i h
    rcases o with _ | o <;> rcases n with _ | n <;> rcases i with _ | i <;>
      simp_all [calc_bps]
  · intro o n i
    have h := hnn o n i
    unfold pyInt
    rw [if_pos h]
    exact Int.le_floor.mpr (by exact_mod_cast h)

/-- C9 witness: the theorem applied at concrete numeric and non-numeric
inputs. -/
theorem c9_witness :
    ((5 : ℚ) ≠ 0 ∧ calc_bps (some 0) (some 5) (some 5) = max ((5 - 0) * 8 / 5) 0) ∧
    calc_bps none (some 5) (some 5) = 0 ∧
    (0 : ℚ) ≤ calc_bps (some 3) (some 1) (some 5) :=
  ⟨⟨by simp, c9_calc_bps_total_nonneg.1 0 5 5 (by simp)⟩,
   c9_calc_bps_total_nonneg.2.2.1 none (some 5) (some 5) (Or.inl rfl),
   c9_calc_bps_total_nonneg.2.2.2.1 (some 3) (some 1) (some 5)⟩

/-- C10: `limit = 0` (and any non-positive limit) means no cap — every link
with an unresolved destination is selected and processed; the candidate
list is truncated to its first `limit` entries exactly when `limit` is
strictly positive; and the endpoint's `processed` count is the length of
that selection. -/
theorem c10_zero_limit_no_cap :
    (∀ (links : List TopologyLink) (limit : Int), limit ≤ 0 →
      selectLinks links limit = links.filter (fun l => decide (l.dst_device_id = none))) ∧
    (∀ (links : List TopologyLink) (limit : Int), 0 < limit →
      selectLinks links limit =
        (links.filter (fun l => decide (l.dst_device_id = none))).take limit.toNat) ∧
    (∀ (db : DB) (dry : Bool) (limit : Int),
      (backfill_links db dry limit).processed = (selectLinks db.links limit).length) := by
  refine ⟨?_, ?_, ?_⟩
  · intro links limit h
    unfold selectLinks
    rw [if_neg (by omega)]
  · intro links limit h
    unfold selectLinks
    rw [if_pos ⟨by omega, h⟩]
  · intro db dry limit
    rfl

/-- C10 witness: the theorem applied at `limit = 0` (no cap) and
`limit = 2` (cap) on a one-link table. -/
theorem c10_witness :
    ((0 : Int) ≤ 0 ∧ selectLinks [linkU] 0 =
      [linkU].filter (fun l => decide (l.dst_device_id = none))) ∧
    ((0 : Int) < 2 ∧ selectLinks [linkU] 2 =
      ([linkU].filter (fun l => decide (l.dst_device_id = none))).take (2 : Int).toNat) :=
  ⟨⟨by decide, c10_zero_limit_no_cap.1 [linkU] 0 (by decide)⟩,
   ⟨by decide, c10_zero_limit_no_cap.2.1 [linkU] 2 (by decide)⟩⟩
